import Mathlib

/-!
Shallow embedding of the chich-transfer-api core: the Transfer state machine
(apps/transfers/models.py), the webhook reconciler (apps/transfers/webhooks.py),
the creation flow (apps/transfers/views.py, apps/transfers/serializers.py),
the AWDPay client request construction (apps/integrations/awdpay.py) and the
gateway directory (apps/integrations/gateway_mapping.py).

Money (Django DecimalField / Python Decimal) is modelled as ℚ; exact decimal
arithmetic on the amounts in play is exact rational arithmetic.  Python
falsiness of strings is emptiness, of Decimal is equality with 0, of None is
the Option.none case.  Wall-clock instants are opaque Nat/Int parameters.
HMAC-SHA256 is an opaque function parameter: no claim depends on the hash
itself, only on how the handlers use the comparison result.
-/

namespace ChichTransfer

abbrev Money : Type := ℚ

/-- Transfer lifecycle states, from `TransferStatus` in apps/transfers/models.py. -/
inductive TStatus where
  | pending
  | deposit_pending
  | deposit_confirmed
  | deposit_failed
  | withdrawal_pending
  | processing
  | completed
  | failed
  | cancelled
  | reversed
deriving DecidableEq, Repr

/-- The Transfer aggregate (apps/transfers/models.py, class Transfer), restricted to
the columns the claims touch.  `total_amount = 0` plays the role of the Python-falsy
"unset" value tested by `Transfer.save`. -/
structure Transfer where
  reference : String
  status : TStatus
  amount : Money
  service_fee : Money
  total_amount : Money
  destination_amount : Option Money
  destination_currency : String
  currency : String
  sender_phone : String
  sender_email : String
  recipient_phone : String
  funding_mobile_provider : String
  payout_mobile_provider : String
  deposit_reference : String
  deposit_status : String
  deposit_gateway : String
  deposit_initiated_at : Option Nat
  deposit_confirmed_at : Option Nat
  withdrawal_reference : String
  withdrawal_status : String
  withdrawal_gateway : String
  withdrawal_initiated_at : Option Nat
  withdrawal_confirmed_at : Option Nat
  completed_at : Option Nat
  error_code : String
  error_message : String
deriving DecidableEq, Repr

/-- The `Transfer.save` override (models.py lines 179-182): when `total_amount`
is Python-falsy (0 / unset) it is recomputed as `amount + service_fee`. -/
def transferSaveHook (t : Transfer) : Transfer :=
  if t.total_amount = 0 then
    { t with total_amount := t.amount + t.service_fee }
  else t

/-- Model of `Transfer.mark_deposit_pending` (models.py lines 186-195). -/
def mark_deposit_pending (t : Transfer) (depositRef gateway : String) (now : Nat) : Transfer :=
  transferSaveHook
    { t with
      status := .deposit_pending
      deposit_reference := depositRef
      deposit_gateway := gateway
      deposit_status := "pending"
      deposit_initiated_at := some now }

/-- Model of `Transfer.mark_deposit_confirmed` (models.py lines 197-203). -/
def mark_deposit_confirmed (t : Transfer) (now : Nat) : Transfer :=
  transferSaveHook
    { t with
      status := .deposit_confirmed
      deposit_status := "completed"
      deposit_confirmed_at := some now }

/-- Model of `Transfer.mark_deposit_failed` (models.py lines 205-212). -/
def mark_deposit_failed (t : Transfer) (message code : String) : Transfer :=
  transferSaveHook
    { t with
      status := .deposit_failed
      deposit_status := "failed"
      error_message := message
      error_code := code }

/-- Model of `Transfer.mark_withdrawal_pending` (models.py lines 214-223). -/
def mark_withdrawal_pending (t : Transfer) (withdrawalRef gateway : String) (now : Nat) : Transfer :=
  transferSaveHook
    { t with
      status := .withdrawal_pending
      withdrawal_reference := withdrawalRef
      withdrawal_gateway := gateway
      withdrawal_status := "pending"
      withdrawal_initiated_at := some now }

/-- Model of `Transfer.mark_completed` (models.py lines 225-233). -/
def mark_completed (t : Transfer) (now : Nat) : Transfer :=
  transferSaveHook
    { t with
      status := .completed
      withdrawal_status := "completed"
      withdrawal_confirmed_at := some now
      completed_at := some now }

/-- Model of `Transfer.mark_failed` (models.py lines 235-240); `error_code` is only set when
`code` is truthy (not None, not empty). -/
def mark_failed (t : Transfer) (message : String) (code : Option String) : Transfer :=
  transferSaveHook
    { t with
      status := .failed
      error_message := message
      error_code :=
        match code with
        | some c => if c = "" then t.error_code else c
        | none => t.error_code }

/-- AWDPay gateway info, from apps/integrations/gateway_mapping.py. -/
structure GatewayInfo where
  gateway : String
  country : String
  currency : String
deriving DecidableEq, Repr

/-- Model of `GATEWAY_MAP` (apps/integrations/gateway_mapping.py). -/
def GATEWAY_MAP : List (String × GatewayInfo) :=
  [ ("mtn_cm", ⟨"mtn", "CM", "XAF"⟩)
  , ("orange_cm", ⟨"orange-cm", "CM", "XAF"⟩)
  , ("mtn_ci", ⟨"mtn-ci", "CI", "XOF"⟩)
  , ("orange_ci", ⟨"orange-ci", "CI", "XOF"⟩)
  , ("moov_ci", ⟨"moov-ci", "CI", "XOF"⟩)
  , ("wave_ci", ⟨"wave-ci", "CI", "XOF"⟩)
  , ("orange_sn", ⟨"orange-sn", "SN", "XOF"⟩)
  , ("free_sn", ⟨"free-sn", "SN", "XOF"⟩)
  , ("wave_sn", ⟨"wave-sn", "SN", "XOF"⟩)
  , ("orange_ml", ⟨"orange-ml", "ML", "XOF"⟩)
  , ("moov_ml", ⟨"moov-ml", "ML", "XOF"⟩)
  , ("orange_bf", ⟨"orange-bf", "BF", "XOF"⟩)
  , ("moov_bf", ⟨"moov-bf", "BF", "XOF"⟩)
  , ("togocom_tg", ⟨"togocom-tg", "TG", "XOF"⟩)
  , ("moov_tg", ⟨"moov-tg", "TG", "XOF"⟩)
  , ("mtn_bj", ⟨"mtn-bj", "BJ", "XOF"⟩)
  , ("moov_bj", ⟨"moov-bj", "BJ", "XOF"⟩) ]

/-- Model of `get_gateway_info` (apps/integrations/gateway_mapping.py). -/
def get_gateway_info (code : String) : Option GatewayInfo :=
  (GATEWAY_MAP.find? (fun p => p.1 == code)).map (fun p => p.2)

/-- An HMAC-SHA256 implementation, abstracted: `hmacFn secret message` is the hex
digest.  The handlers only compare its output with the presented signature. -/
abbrev HmacFn : Type := String → String → String

/-- Deposit webhook payload after JSON decoding (webhooks.py module docstring),
restricted to the fields the handler reads.  A missing field is the falsy
default `''` that `payload.get(key, '')` produces; `orderId` is
`metadata.order_id`, already collapsed to `''` when `metadata` is absent or not
a dict. -/
structure DepositPayload where
  event : String
  reference : String
  status : String
  amount : String
  orderId : String
  signature : String
deriving DecidableEq, Repr

/-- Model of `_verify_deposit_signature` (webhooks.py lines 73-97).  An unconfigured
`AWDPAY_WEBHOOK_SECRET` is the falsy `''` and short-circuits to True. -/
def verify_deposit_signature (hmacFn : HmacFn) (secret : String) (p : DepositPayload) : Bool :=
  if secret = "" then true
  else if p.signature = "" then false
  else hmacFn secret (p.reference ++ p.status ++ p.amount) == p.signature

/-- Parser for the withdrawal timestamp header, abstracted: the source tries
`int(timestamp)` and then an ISO-8601 parse (webhooks.py lines 119-128); both
failing yields none. -/
abbrev TimestampParse : Type := String → Option Int

/-- Model of `SIGNATURE_TOLERANCE_SECONDS` (webhooks.py line 66). -/
def SIGNATURE_TOLERANCE_SECONDS : Nat := 300

/-- Model of `_verify_withdrawal_signature` (webhooks.py lines 100-140).  `sigHeader` and
`tsHeader` are the X-AWDPay-Signature / X-AWDPay-Timestamp headers (missing =
`''`), `rawBody` the raw request body, `nowSec` the value of `time.time()`. -/
def verify_withdrawal_signature (hmacFn : HmacFn) (parseTs : TimestampParse) (secret : String)
    (sigHeader tsHeader rawBody : String) (nowSec : Int) : Bool :=
  if secret = "" then true
  else if sigHeader = "" ∨ tsHeader = "" then false
  else
    match parseTs tsHeader with
    | none => false
    | some ts =>
      if (nowSec - ts).natAbs > SIGNATURE_TOLERANCE_SECONDS then false
      else hmacFn secret (tsHeader ++ "." ++ rawBody) == sigHeader

/-- Python `str.lower()` on the ASCII statuses in play: lowercase each
character. -/
def strToLower (s : String) : String := ⟨s.data.map Char.toLower⟩

/-- Model of `_parse_deposit_callback` (webhooks.py lines 147-165): yields
(transfer_reference, lowercased status, awdpay reference), or none when the
transfer reference or status is missing. -/
def parse_deposit_callback (p : DepositPayload) : Option (String × String × String) :=
  let status := strToLower p.status
  let transferRef := p.orderId
  if transferRef = "" ∨ status = "" then none
  else some (transferRef, status, p.reference)

/-- Withdrawal webhook payload after JSON decoding, fields read from the nested
`data` object; `withdrawalId` is `data.metadata.withdrawal_id`, collapsed to
`''` when missing. -/
structure WithdrawalPayload where
  event : String
  status : String
  reference : String
  withdrawalId : String
  failureReason : String
  failureMessage : String
deriving DecidableEq, Repr

/-- Model of `_parse_withdrawal_callback` (webhooks.py lines 168-193). -/
def parse_withdrawal_callback (p : WithdrawalPayload) :
    Option (String × String × String × String × String) :=
  let status := strToLower p.status
  if p.withdrawalId = "" ∨ status = "" then none
  else some (p.withdrawalId, status, p.reference, p.failureReason, p.failureMessage)

/-- Persistent state visible to the webhook handlers: the Transfer table (rows
carry a unique `reference`) and the append-only TransferAuditLog, recorded as
(transfer reference, event) in arrival order. -/
structure DB where
  transfers : List Transfer
  audit : List (String × String)
deriving DecidableEq, Repr

/-- Model of `Transfer.objects.get(reference=ref)` over the unique reference index. -/
def DB.findRef (db : DB) (ref : String) : Option Transfer :=
  db.transfers.find? (fun t => t.reference == ref)

/-- Persist an updated row in place of the row(s) carrying `ref`. -/
def DB.updateRef (db : DB) (ref : String) (t' : Transfer) : DB :=
  { db with transfers := db.transfers.map (fun t => if t.reference == ref then t' else t) }

/-- Model of `TransferAuditLog.log(transfer, event, ...)` (models.py lines 407-414). -/
def DB.logEvent (db : DB) (ref event : String) : DB :=
  { db with audit := db.audit ++ [(ref, event)] }

def DB.logEvents (db : DB) (ref : String) (events : List String) : DB :=
  { db with audit := db.audit ++ events.map (fun e => (ref, e)) }

/-- Count of audit entries for `ref` with a given event. -/
def auditCount (audit : List (String × String)) (ref event : String) : Nat :=
  (audit.filter (fun e => e.1 == ref && e.2 == event)).length

/-- Arguments a call to `AwdPayClient.initiate_withdrawal` receives
(awdpay.py lines 195-205); `amount` is kept as the exact value whose string
form the client serialises. -/
structure WithdrawArgs where
  amount : Money
  currency : String
  gateway : String
  phone : String
  country : String
  reference : String
  description : String
deriving DecidableEq, Repr

/-- The provider's JSON response to an initiate-withdrawal call, restricted to
the keys `_trigger_withdrawal` probes with `.get`. -/
structure WithdrawalRes where
  withdrawRef : Option String
  ref : Option String
deriving DecidableEq, Repr

/-- Outcome of the (external) `initiate_withdrawal` HTTP call: either a parsed
response or an `AWDPayAPIError`/`AWDPayTokenError` message. -/
abbrev WithdrawApiOutcome : Type := Except String WithdrawalRes

/-- Result of `_trigger_withdrawal`: the transfer after the attempt, the audit
events it logged (in order), and the argument records of the actual
`client.initiate_withdrawal` calls it issued. -/
structure TriggerOut where
  transfer : Transfer
  events : List String
  withdrawCalls : List WithdrawArgs
deriving DecidableEq, Repr

/-- Model of `_trigger_withdrawal` (webhooks.py lines 200-242).  `apiOutcome` stands for
what the one possible `client.initiate_withdrawal` call would return; `now` is
the wall clock `timezone.now()`. -/
def trigger_withdrawal (apiOutcome : WithdrawApiOutcome) (now : Nat) (t : Transfer) : TriggerOut :=
  match get_gateway_info t.payout_mobile_provider with
  | none =>
    let msg := "No gateway mapping for payout provider: " ++ t.payout_mobile_provider
    { transfer := mark_failed t msg (some "PAYOUT_GATEWAY_MISSING")
      events := ["failed"]
      withdrawCalls := [] }
  | some payoutInfo =>
    let args : WithdrawArgs :=
      { amount :=
          match t.destination_amount with
          | some d => if d = 0 then t.amount else d
          | none => t.amount
        currency := payoutInfo.currency
        gateway := payoutInfo.gateway
        phone := t.recipient_phone
        country := payoutInfo.country
        reference := t.reference
        description := "Payout for " ++ t.reference }
    match apiOutcome with
    | .error exc =>
      { transfer := mark_failed t exc (some "WITHDRAWAL_INIT_ERROR")
        events := ["withdrawal_failed"]
        withdrawCalls := [args] }
    | .ok res =>
      let withdrawalRef := (res.withdrawRef.getD (res.ref.getD t.reference))
      { transfer := mark_withdrawal_pending t withdrawalRef payoutInfo.gateway now
        events := ["withdrawal_initiated"]
        withdrawCalls := [args] }

/-- HTTP responses the webhook endpoints produce.  `okAlready` is the
`{'success': True, 'message': 'Already processed'}` acknowledgment, `ok` the
plain `{'success': True}`. -/
inductive WebhookResponse where
  | badRequest (msg : String)
  | unauthorized
  | notFound
  | okAlready
  | ok
deriving DecidableEq, Repr

/-- Observable result of one deposit-webhook delivery. -/
structure DepositCbOut where
  db : DB
  response : WebhookResponse
  withdrawCalls : List WithdrawArgs
  triggered : Bool
deriving DecidableEq, Repr

/-- Model of `awdpay_deposit_callback` (webhooks.py lines 249-317), starting after JSON
decoding.  `triggered` records whether `_trigger_withdrawal` was invoked. -/
def awdpay_deposit_callback (hmacFn : HmacFn) (secret : String)
    (apiOutcome : WithdrawApiOutcome) (now : Nat)
    (p : DepositPayload) (db : DB) : DepositCbOut :=
  if ¬ verify_deposit_signature hmacFn secret p then
    { db := db, response := .unauthorized, withdrawCalls := [], triggered := false }
  else
    match parse_deposit_callback p with
    | none =>
      { db := db, response := .badRequest "Unrecognised callback format"
        withdrawCalls := [], triggered := false }
    | some (transferRef, callbackStatus, awdpayRef) =>
      match db.findRef transferRef with
      | none =>
        { db := db, response := .notFound, withdrawCalls := [], triggered := false }
      | some transfer =>
        let db1 := db.logEvent transferRef "webhook_received"
        if transfer.status ≠ .deposit_pending then
          { db := db1, response := .okAlready, withdrawCalls := [], triggered := false }
        else if callbackStatus = "completed" then
          let t1 := transferSaveHook
            { transfer with deposit_reference :=
                if awdpayRef ≠ "" then awdpayRef else transfer.deposit_reference }
          let t2 := mark_deposit_confirmed t1 now
          let db2 := (db1.updateRef transferRef t2).logEvent transferRef "deposit_confirmed"
          let trig := trigger_withdrawal apiOutcome now t2
          let db3 := (db2.updateRef transferRef trig.transfer).logEvents transferRef trig.events
          { db := db3, response := .ok, withdrawCalls := trig.withdrawCalls, triggered := true }
        else if callbackStatus = "failed" ∨ callbackStatus = "expired" then
          let reason := if callbackStatus = "expired" then "Deposit expired via callback"
            else "Deposit failed via callback"
          let code := if callbackStatus = "expired" then "DEPOSIT_CALLBACK_EXPIRED"
            else "DEPOSIT_CALLBACK_FAILED"
          let t1 := mark_deposit_failed transfer reason code
          let db2 := (db1.updateRef transferRef t1).logEvent transferRef "deposit_failed"
          { db := db2, response := .ok, withdrawCalls := [], triggered := false }
        else
          { db := db1, response := .ok, withdrawCalls := [], triggered := false }

/-- Observable result of one withdrawal-webhook delivery. -/
structure WithdrawalCbOut where
  db : DB
  response : WebhookResponse
deriving DecidableEq, Repr

/-- Model of `awdpay_withdrawal_callback` (webhooks.py lines 320-386), starting after
JSON decoding; `sigHeader`, `tsHeader`, `rawBody` and `nowSec` feed signature
verification. -/
def awdpay_withdrawal_callback (hmacFn : HmacFn) (parseTs : TimestampParse) (secret : String)
    (sigHeader tsHeader rawBody : String) (nowSec : Int) (now : Nat)
    (p : WithdrawalPayload) (db : DB) : WithdrawalCbOut :=
  if ¬ verify_withdrawal_signature hmacFn parseTs secret sigHeader tsHeader rawBody nowSec then
    { db := db, response := .unauthorized }
  else
    match parse_withdrawal_callback p with
    | none => { db := db, response := .badRequest "Unrecognised callback format" }
    | some (transferRef, callbackStatus, awdpayRef, failureReason, failureMessage) =>
      match db.findRef transferRef with
      | none => { db := db, response := .notFound }
      | some transfer =>
        let db1 := db.logEvent transferRef "webhook_received"
        if transfer.status ≠ .withdrawal_pending then
          { db := db1, response := .okAlready }
        else if callbackStatus = "success" then
          let t1 := transferSaveHook
            { transfer with withdrawal_reference :=
                if awdpayRef ≠ "" then awdpayRef else transfer.withdrawal_reference }
          let t2 := mark_completed t1 now
          { db := (db1.updateRef transferRef t2).logEvent transferRef "completed"
            response := .ok }
        else if callbackStatus = "failed" then
          let errorMsg := if failureMessage ≠ "" then failureMessage
            else "Withdrawal failed via callback"
          let errorCode := if failureReason ≠ "" then failureReason
            else "WITHDRAWAL_CALLBACK_FAILED"
          let t1 := mark_failed transfer errorMsg (some errorCode)
          { db := (db1.updateRef transferRef t1).logEvent transferRef "withdrawal_failed"
            response := .ok }
        else
          { db := db1, response := .ok }

/-- A calendar date, as Python `datetime.date`. -/
structure Date where
  year : Nat
  month : Nat
  day : Nat
deriving DecidableEq, Repr

def isLeap (y : Nat) : Bool := (y % 4 = 0 ∧ y % 100 ≠ 0) ∨ y % 400 = 0

def daysInMonth (y m : Nat) : Nat :=
  if m = 2 then (if isLeap y then 29 else 28)
  else if m = 4 ∨ m = 6 ∨ m = 9 ∨ m = 11 then 30
  else 31

/-- Python `date(y, m, 1) - timedelta(days=1)`: the last day of the previous month. -/
def prevDayOfFirst (y m : Nat) : Date :=
  if m > 1 then ⟨y, m - 1, daysInMonth y (m - 1)⟩ else ⟨y - 1, 12, 31⟩

/-- First day of `today`'s month (models.py line 315). -/
def monthStartOf (today : Date) : Date := ⟨today.year, today.month, 1⟩

/-- Last day of `today`'s month (models.py lines 316-319). -/
def monthEndOf (today : Date) : Date :=
  if today.month = 12 then prevDayOfFirst (today.year + 1) 1
  else prevDayOfFirst today.year (today.month + 1)

/-- The TransferLimitSnapshot row (models.py, class TransferLimitSnapshot),
restricted to the window and counter columns. -/
structure Snap where
  period_start : Date
  period_end : Date
  daily_date : Date
  total_sent : Money
  transfer_count : Nat
  daily_sent : Money
  daily_count : Nat
deriving DecidableEq, Repr

/-- What `TransferLimitSnapshot.for_user` leaves behind: the in-memory object it
returns to its caller, and the row as persisted in the database afterwards. -/
structure ForUserOut where
  returned : Snap
  persisted : Snap
deriving DecidableEq, Repr

/-- Model of `TransferLimitSnapshot.for_user` (models.py lines 309-346).  `stored` is the
user's existing row (none triggers the `get_or_create` insert).  The final
`obj.save()` is guarded by `created or obj.period_start != month_start or
obj.daily_date != today`, re-checked after the reset assignments. -/
def for_user (today : Date) (stored : Option Snap) : ForUserOut :=
  let month_start := monthStartOf today
  let month_end := monthEndOf today
  match stored with
  | none =>
    let fresh : Snap :=
      { period_start := month_start, period_end := month_end, daily_date := today
        total_sent := 0, transfer_count := 0, daily_sent := 0, daily_count := 0 }
    { returned := fresh, persisted := fresh }
  | some obj0 =>
    let created := false
    let obj1 :=
      if obj0.period_start ≠ month_start then
        { obj0 with period_start := month_start, period_end := month_end
                    total_sent := 0, transfer_count := 0 }
      else obj0
    let obj2 :=
      if obj1.daily_date ≠ today then
        { obj1 with daily_date := today, daily_sent := 0, daily_count := 0 }
      else obj1
    if created ∨ obj2.period_start ≠ month_start ∨ obj2.daily_date ≠ today then
      { returned := obj2, persisted := obj2 }
    else
      { returned := obj2, persisted := obj0 }

/-- The KYC-tier limit triple returned by `KYCProfile.get_transaction_limit`
(apps/kyc/models.py lines 106-125). -/
structure Limits where
  transaction_limit : Money
  daily_limit : Money
  monthly_limit : Money
deriving DecidableEq, Repr

def basicLimits : Limits := ⟨50000, 100000, 500000⟩

/-- Round a rational to an integer, ties to even: `decimal.Decimal.quantize`'s
default ROUND_HALF_EVEN. -/
def roundHalfEven (q : ℚ) : ℤ :=
  if q - (⌊q⌋ : ℚ) < 1/2 then ⌊q⌋
  else if 1/2 < q - (⌊q⌋ : ℚ) then ⌊q⌋ + 1
  else if ⌊q⌋ % 2 = 0 then ⌊q⌋ else ⌊q⌋ + 1

/-- Model of `fee.quantize(Decimal(1)/100)` (serializers.py line 115): round to two
decimal places, half to even. -/
def quantize2 (q : ℚ) : ℚ := (roundHalfEven (q * 100) : ℚ) / 100

/-- The active corridor row the serializer looks up, restricted to the fee and
bound columns it reads (apps/routes: `fixed_fee`, `percentage_fee`,
`min_amount`, `max_amount` are read at serializers.py lines 75-109). -/
structure Corridor where
  fixed_fee : Money
  percentage_fee : Money
  min_amount : Money
  max_amount : Money
deriving DecidableEq, Repr

/-- The corridor-based service fee (serializers.py lines 108-115):
`fixed_fee + amount * percentage_fee / 100`, quantized to 2 decimals. -/
def corridorFee (c : Corridor) (amount : Money) : Money :=
  quantize2 (c.fixed_fee + amount * c.percentage_fee / 100)

/-- The flat tiered fee schedule as the spec states it (spec §4.3); this
schedule appears nowhere in the source — it exists here only to be compared
with the source's `corridorFee`. -/
def specFlatFee (amount : Money) : Money :=
  if amount ≤ 10000 then 50
  else if amount ≤ 50000 then max 100 (min (amount * 1 / 100) 500)
  else if amount ≤ 200000 then max 500 (min (amount * 8 / 1000) 1500)
  else max 1500 (min (amount * 5 / 1000) 5000)

/-- Validation outcome of `CreateTransferSerializer.validate`: the computed
service fee together with the snapshot it read, or a validation error code. -/
inductive ValidateOut where
  | invalid (reason : String)
  | valid (service_fee : Money) (snapshot : Snap)
deriving DecidableEq, Repr

/-- Model of `CreateTransferSerializer.validate` (serializers.py lines 47-118), after the
per-field gateway checks.  `corridor` is the result of the active-corridor
lookup; `stored` is the user's existing limit snapshot row; `today` drives the
`for_user` roll-forward. -/
def validateCreate (amount : Money) (corridor : Option Corridor) (limits : Limits)
    (today : Date) (stored : Option Snap) : ValidateOut :=
  match corridor with
  | none => .invalid "CorridorNotSupported"
  | some c =>
    if amount < c.min_amount then .invalid "AmountBelowCorridorMin"
    else if amount > c.max_amount then .invalid "AmountAboveCorridorMax"
    else
      let snapshot := (for_user today stored).returned
      if amount > limits.transaction_limit then .invalid "PerTransactionLimitExceeded"
      else if snapshot.daily_sent + amount > limits.daily_limit then .invalid "DailyLimitExceeded"
      else if snapshot.total_sent + amount > limits.monthly_limit then .invalid "MonthlyLimitExceeded"
      else .valid (corridorFee c amount) snapshot

/-- Validated data handed from the serializer to `CreateTransferView.post`,
restricted to what the creation flow reads. -/
structure ValidatedData where
  sender_phone : String
  sender_name : String
  recipient_name : String
  recipient_phone : String
  recipient_email : String
  funding_provider : String
  payout_provider : String
  amount : Money
  currency : String
  description : String
  service_fee : Money
  funding_info : GatewayInfo
  payout_info : GatewayInfo
  snapshot : Snap
deriving DecidableEq, Repr

/-- The provider's JSON response to an initiate-deposit call, restricted to the
keys `CreateTransferView.post` probes with `.get`. -/
structure DepositRes where
  depositRef : Option String
  ref : Option String
deriving DecidableEq, Repr

abbrev DepositApiOutcome : Type := Except String DepositRes

/-- Response of the creation endpoint: HTTP 201 with the transfer, or the HTTP
400 error body of the deposit-initiation failure path. -/
inductive CreateResponse where
  | created
  | failed400 (error errorCode : String)
deriving DecidableEq, Repr

/-- Observable result of one creation request (post-validation). -/
structure CreateOut where
  transfer : Transfer
  snapshot : Snap
  audit : List String
  response : CreateResponse
deriving DecidableEq, Repr

/-- Model of `Transfer.objects.create(...)` as issued by `CreateTransferView.post`
(views.py lines 51-80): `total_amount` is not passed, so the save hook computes
it. -/
def createdTransfer (d : ValidatedData) (reference userEmail : String) : Transfer :=
  transferSaveHook
    { reference := reference
      status := .pending
      amount := d.amount
      service_fee := d.service_fee
      total_amount := 0
      destination_amount := some d.amount
      destination_currency := d.payout_info.currency
      currency := d.currency
      sender_phone := d.sender_phone
      recipient_phone := d.recipient_phone
      funding_mobile_provider := d.funding_provider
      payout_mobile_provider := d.payout_provider
      deposit_reference := ""
      deposit_status := ""
      deposit_gateway := d.funding_info.gateway
      deposit_initiated_at := none
      deposit_confirmed_at := none
      withdrawal_reference := ""
      withdrawal_status := ""
      withdrawal_gateway := d.payout_info.gateway
      withdrawal_initiated_at := none
      withdrawal_confirmed_at := none
      completed_at := none
      error_code := ""
      error_message := ""
      sender_email := userEmail }

/-- Model of `CreateTransferView.post` (views.py lines 34-156), starting after serializer
validation.  `depositOutcome` stands for what the `client.initiate_deposit`
call returns. -/
def createTransferPost (d : ValidatedData) (reference userEmail : String)
    (depositOutcome : DepositApiOutcome) (now : Nat) : CreateOut :=
  let t0 := createdTransfer d reference userEmail
  let t1 := transferSaveHook { t0 with total_amount := t0.amount + t0.service_fee }
  match depositOutcome with
  | .error exc =>
    let t2 := mark_failed t1 exc (some "DEPOSIT_INIT_ERROR")
    { transfer := t2
      snapshot := d.snapshot
      audit := ["created", "failed"]
      response := .failed400 exc "DEPOSIT_INIT_ERROR" }
  | .ok res =>
    let depositRef := res.depositRef.getD (res.ref.getD reference)
    let t2 := mark_deposit_pending t1 depositRef d.funding_info.gateway now
    let snap' : Snap :=
      { d.snapshot with
        total_sent := d.snapshot.total_sent + t2.amount
        transfer_count := d.snapshot.transfer_count + 1
        daily_sent := d.snapshot.daily_sent + t2.amount
        daily_count := d.snapshot.daily_count + 1 }
    { transfer := t2
      snapshot := snap'
      audit := ["created", "deposit_initiated"]
      response := .created }

/-- A JSON scalar as it appears in an outbound request body. -/
inductive JsonVal where
  | num (n : ℚ)
  | str (s : String)
deriving DecidableEq, Repr

/-- The request body `AwdPayClient.initiate_deposit` sends to
`POST /api/v2/classic/deposit/initiate` (awdpay.py lines 142-181). -/
structure DepositRequestBody where
  amount : JsonVal
  currency : String
  gatewayName : String
  customerName : String
  customerEmail : String
  customerPhone : String
  country : String
  callbackUrl : String
  orderId : String
  metaDescription : String
deriving DecidableEq, Repr

/-- Model of `AwdPayClient.initiate_deposit`'s payload construction (awdpay.py lines
161-176).  The `amount` keyword argument received by the method is a string;
the body's `"amount"` field is written as the literal `200`. -/
def initiate_deposit_body (callbackBaseUrl : String)
    (amount currency gateway phone country reference description : String) :
    DepositRequestBody :=
  { amount := .num 200
    currency := currency
    gatewayName := gateway
    customerName := phone
    customerEmail := "aaa@aa.com"
    customerPhone := phone
    country := country
    callbackUrl := callbackBaseUrl ++ "/webhooks/awdpay/deposit/"
    orderId := reference
    metaDescription := if description = "" then "Deposit " ++ reference else description }

/-- The transfer as the deposit handler's `completed` branch leaves it right
after `mark_deposit_confirmed` (webhooks.py lines 299-301), before the
withdrawal trigger. -/
def depositConfirmedNext (p : DepositPayload) (t : Transfer) (now : Nat) : Transfer :=
  mark_deposit_confirmed (transferSaveHook
    { t with deposit_reference :=
        if p.reference ≠ "" then p.reference else t.deposit_reference }) now

/-- The limit snapshot used in the C3 failing input: a row last written in
September 2025 (stale month and day windows, non-zero counters). -/
def staleSnapC3 : Snap :=
  { period_start := ⟨2025, 9, 1⟩, period_end := ⟨2025, 9, 30⟩
    daily_date := ⟨2025, 9, 15⟩
    total_sent := 1000, transfer_count := 3, daily_sent := 500, daily_count := 2 }

/-! ### The persists of a Transfer after creation (for the total-amount invariant) -/

/-- Every write the engine performs on a Transfer after creation: the six
state-machine methods of models.py and the two direct field saves the webhook
handlers issue (webhooks.py lines 299-300 and 371-372). -/
inductive TransferOp where
  | opDepositPending (ref gw : String) (now : Nat)
  | opDepositConfirmed (now : Nat)
  | opDepositFailed (msg code : String)
  | opWithdrawalPending (ref gw : String) (now : Nat)
  | opCompleted (now : Nat)
  | opFailed (msg : String) (code : Option String)
  | opSetDepositRef (ref : String)
  | opSetWithdrawalRef (ref : String)

def applyOp (t : Transfer) : TransferOp → Transfer
  | .opDepositPending ref gw now => mark_deposit_pending t ref gw now
  | .opDepositConfirmed now => mark_deposit_confirmed t now
  | .opDepositFailed msg code => mark_deposit_failed t msg code
  | .opWithdrawalPending ref gw now => mark_withdrawal_pending t ref gw now
  | .opCompleted now => mark_completed t now
  | .opFailed msg code => mark_failed t msg code
  | .opSetDepositRef ref => transferSaveHook { t with deposit_reference := ref }
  | .opSetWithdrawalRef ref => transferSaveHook { t with withdrawal_reference := ref }

def applyOps (t : Transfer) (ops : List TransferOp) : Transfer :=
  ops.foldl applyOp t

/-- The spec's invariant `total_amount == amount + service_fee`. -/
def totalInvariant (t : Transfer) : Prop :=
  t.total_amount = t.amount + t.service_fee

/-- The fresh snapshot `for_user` creates for a user first seen on 2025-10-05. -/
def freshOctSnap : Snap :=
  { period_start := ⟨2025, 10, 1⟩, period_end := ⟨2025, 10, 31⟩
    daily_date := ⟨2025, 10, 5⟩
    total_sent := 0, transfer_count := 0, daily_sent := 0, daily_count := 0 }

/-! ### Concrete fixtures and witnesses -/

def hmacZero : HmacFn := fun _ _ => ""

/-- A transfer awaiting deposit confirmation, payout via a mapped gateway. -/
def tFix : Transfer :=
  { reference := "TRF-1", status := .deposit_pending
    amount := 20000, service_fee := 200, total_amount := 20200
    destination_amount := some 20000, destination_currency := "XOF", currency := "XAF"
    sender_phone := "237670000001", sender_email := "sender@example.com"
    recipient_phone := "225070000002"
    funding_mobile_provider := "mtn_cm", payout_mobile_provider := "wave_ci"
    deposit_reference := "", deposit_status := "pending", deposit_gateway := "mtn"
    deposit_initiated_at := some 0, deposit_confirmed_at := none
    withdrawal_reference := "", withdrawal_status := "", withdrawal_gateway := "wave-ci"
    withdrawal_initiated_at := none, withdrawal_confirmed_at := none
    completed_at := none, error_code := "", error_message := "" }

def dbFix : DB := { transfers := [tFix], audit := [] }

def pFix : DepositPayload :=
  { event := "deposit.completed", reference := "AWD-1", status := "completed"
    amount := "20000", orderId := "TRF-1", signature := "" }

def apiOkW : WithdrawApiOutcome := .ok { withdrawRef := some "WD-1", ref := none }

/-- A transfer already completed, for the terminal-frame witness. -/
def tDone : Transfer := { tFix with reference := "TRF-2", status := .completed }

def dbDone : DB := { transfers := [tDone], audit := [] }

def pwFix : WithdrawalPayload :=
  { event := "withdrawal.success", status := "success", reference := "AWD-2"
    withdrawalId := "TRF-2", failureReason := "", failureMessage := "" }

/-! ### Helper lemmas -/

/-- The save hook `transferSaveHook` only ever touches `total_amount`. -/
theorem saveHook_eq (t : Transfer) :
    transferSaveHook t =
      { t with total_amount :=
          if t.total_amount = 0 then t.amount + t.service_fee else t.total_amount } := by
  unfold transferSaveHook
  split
  · simp_all
  · simp_all

theorem findRef_some_ref {db : DB} {r : String} {t : Transfer}
    (h : db.findRef r = some t) : t.reference = r := by
  unfold DB.findRef at h
  have h' := List.find?_some h
  simpa using h'

theorem find?_update_list (l : List Transfer) (r : String) (t' : Transfer)
    (h : t'.reference = r) (t : Transfer)
    (hf : l.find? (fun x => x.reference == r) = some t) :
    (l.map (fun x => if x.reference == r then t' else x)).find?
      (fun x => x.reference == r) = some t' := by
  induction l with
  | nil => simp at hf
  | cons a l ih =>
    rw [List.map_cons]
    by_cases ha : (a.reference == r) = true
    · rw [if_pos ha]
      exact List.find?_cons_of_pos _ (by simp [h])
    · have ha' : ¬ (a.reference == r) = true := ha
      rw [if_neg ha']
      rw [@List.find?_cons_of_neg Transfer (fun x => x.reference == r) a l ha'] at hf
      rw [@List.find?_cons_of_neg Transfer (fun x => x.reference == r) a
        (l.map (fun x => if x.reference == r then t' else x)) ha']
      exact ih hf

theorem findRef_updateRef {db : DB} {r : String} {t' : Transfer}
    (h : t'.reference = r) {t : Transfer} (hf : db.findRef r = some t) :
    (db.updateRef r t').findRef r = some t' := by
  unfold DB.findRef DB.updateRef at *
  exact find?_update_list db.transfers r t' h t hf

theorem findRef_logEvent (db : DB) (x r e : String) :
    (db.logEvent r e).findRef x = db.findRef x := rfl

theorem findRef_logEvents (db : DB) (x r : String) (es : List String) :
    (db.logEvents r es).findRef x = db.findRef x := rfl

theorem auditCount_append (a b : List (String × String)) (r e : String) :
    auditCount (a ++ b) r e = auditCount a r e + auditCount b r e := by
  simp [auditCount, List.filter_append]

theorem auditCount_single (r e' e : String) :
    auditCount [(r, e')] r e = if e' == e then 1 else 0 := by
  simp only [auditCount, List.filter]
  by_cases h : (e' == e) = true
  · simp [h]
  · simp [h]

/-- The function `trigger_withdrawal` never alters the internal reference. -/
theorem trigger_reference (api : WithdrawApiOutcome) (now : Nat) (t : Transfer) :
    (trigger_withdrawal api now t).transfer.reference = t.reference := by
  unfold trigger_withdrawal
  cases get_gateway_info t.payout_mobile_provider with
  | none => simp [mark_failed, saveHook_eq]
  | some info =>
    cases api with
    | error e => simp [mark_failed, saveHook_eq]
    | ok res => simp [mark_withdrawal_pending, saveHook_eq]

/-- After a withdrawal-initiation attempt the transfer is FAILED or
WITHDRAWAL_PENDING — never back in DEPOSIT_PENDING. -/
theorem trigger_status (api : WithdrawApiOutcome) (now : Nat) (t : Transfer) :
    (trigger_withdrawal api now t).transfer.status = .failed ∨
      (trigger_withdrawal api now t).transfer.status = .withdrawal_pending := by
  unfold trigger_withdrawal
  cases get_gateway_info t.payout_mobile_provider with
  | none => left; simp [mark_failed, saveHook_eq]
  | some info =>
    cases api with
    | error e => left; simp [mark_failed, saveHook_eq]
    | ok res => right; simp [mark_withdrawal_pending, saveHook_eq]

theorem trigger_events_cases (api : WithdrawApiOutcome) (now : Nat) (t : Transfer) :
    (trigger_withdrawal api now t).events = ["failed"] ∨
      (trigger_withdrawal api now t).events = ["withdrawal_failed"] ∨
      (trigger_withdrawal api now t).events = ["withdrawal_initiated"] := by
  unfold trigger_withdrawal
  cases get_gateway_info t.payout_mobile_provider with
  | none => left; rfl
  | some info =>
    cases api with
    | error e => right; left; rfl
    | ok res => right; right; rfl

theorem trigger_calls_length (api : WithdrawApiOutcome) (now : Nat) (t : Transfer) :
    (trigger_withdrawal api now t).withdrawCalls.length ≤ 1 := by
  unfold trigger_withdrawal
  cases get_gateway_info t.payout_mobile_provider with
  | none => simp
  | some info =>
    cases api with
    | error e => simp
    | ok res => simp

theorem parse_deposit_eq {p : DepositPayload} {r cs : String}
    (href : p.orderId = r) (hr : r ≠ "") (hcs : strToLower p.status = cs) (hcs' : cs ≠ "") :
    parse_deposit_callback p = some (r, cs, p.reference) := by
  simp [parse_deposit_callback, href, hcs, hr, hcs']

theorem parse_withdrawal_eq {p : WithdrawalPayload} {r cs : String}
    (hid : p.withdrawalId = r) (hr : r ≠ "") (hcs : strToLower p.status = cs) (hcs' : cs ≠ "") :
    parse_withdrawal_callback p =
      some (r, cs, p.reference, p.failureReason, p.failureMessage) := by
  simp [parse_withdrawal_callback, hid, hcs, hr, hcs']

/-- Executing the deposit callback on a DEPOSIT_PENDING transfer with a
`completed` payload: confirm the deposit, audit, trigger the withdrawal. -/
theorem deposit_callback_completed_run (hmacFn : HmacFn) (secret : String)
    (api : WithdrawApiOutcome) (now : Nat) (p : DepositPayload) (db : DB)
    (r : String) (t : Transfer)
    (hsig : verify_deposit_signature hmacFn secret p = true)
    (href : p.orderId = r) (hr : r ≠ "") (hcs : strToLower p.status = "completed")
    (hdb : db.findRef r = some t) (hst : t.status = .deposit_pending) :
    awdpay_deposit_callback hmacFn secret api now p db =
      { db := { transfers := ((db.updateRef r (depositConfirmedNext p t now)).updateRef r
                  (trigger_withdrawal api now (depositConfirmedNext p t now)).transfer).transfers
                audit := db.audit ++ [(r, "webhook_received"), (r, "deposit_confirmed")]
                  ++ (trigger_withdrawal api now (depositConfirmedNext p t now)).events.map
                      (fun e => (r, e)) }
        response := .ok
        withdrawCalls := (trigger_withdrawal api now (depositConfirmedNext p t now)).withdrawCalls
        triggered := true } := by
  have hparse := parse_deposit_eq href hr hcs (by decide)
  unfold awdpay_deposit_callback
  rw [hsig, hparse]
  simp only [DB.findRef, DB.logEvent] at hdb ⊢
  rw [hdb]
  simp [hst, depositConfirmedNext, DB.updateRef, DB.logEvents, DB.logEvent, List.append_assoc]

theorem depositConfirmedNext_reference (p : DepositPayload) (t : Transfer) (now : Nat) :
    (depositConfirmedNext p t now).reference = t.reference := by
  simp [depositConfirmedNext, mark_deposit_confirmed, saveHook_eq]

theorem depositConfirmedNext_status (p : DepositPayload) (t : Transfer) (now : Nat) :
    (depositConfirmedNext p t now).status = .deposit_confirmed := by
  simp [depositConfirmedNext, mark_deposit_confirmed, saveHook_eq]

theorem depositConfirmedNext_payout (p : DepositPayload) (t : Transfer) (now : Nat) :
    (depositConfirmedNext p t now).payout_mobile_provider = t.payout_mobile_provider := by
  simp [depositConfirmedNext, mark_deposit_confirmed, saveHook_eq]

/-- After a completed-deposit delivery, the stored transfer is the one the
withdrawal trigger produced. -/
theorem deposit_callback_completed_findRef (hmacFn : HmacFn) (secret : String)
    (api : WithdrawApiOutcome) (now : Nat) (p : DepositPayload) (db : DB)
    (r : String) (t : Transfer)
    (hsig : verify_deposit_signature hmacFn secret p = true)
    (href : p.orderId = r) (hr : r ≠ "") (hcs : strToLower p.status = "completed")
    (hdb : db.findRef r = some t) (hst : t.status = .deposit_pending) :
    (awdpay_deposit_callback hmacFn secret api now p db).db.findRef r =
      some (trigger_withdrawal api now (depositConfirmedNext p t now)).transfer := by
  rw [deposit_callback_completed_run hmacFn secret api now p db r t hsig href hr hcs hdb hst]
  have htr : t.reference = r := findRef_some_ref hdb
  have h2ref : (depositConfirmedNext p t now).reference = r := by
    rw [depositConfirmedNext_reference]; exact htr
  have h1 := findRef_updateRef h2ref hdb
  have h2 := findRef_updateRef
    (show (trigger_withdrawal api now (depositConfirmedNext p t now)).transfer.reference = r from by
      rw [trigger_reference]; exact h2ref) h1
  simpa [DB.findRef] using h2

/-- Executing the deposit callback on a transfer whose status has moved past
DEPOSIT_PENDING: audit the webhook, acknowledge as already processed. -/
theorem deposit_callback_already_run (hmacFn : HmacFn) (secret : String)
    (api : WithdrawApiOutcome) (now : Nat) (p : DepositPayload) (db : DB)
    (r cs : String) (t : Transfer)
    (hsig : verify_deposit_signature hmacFn secret p = true)
    (hparse : parse_deposit_callback p = some (r, cs, p.reference))
    (hdb : db.findRef r = some t) (hst : t.status ≠ .deposit_pending) :
    awdpay_deposit_callback hmacFn secret api now p db =
      { db := db.logEvent r "webhook_received", response := .okAlready
        withdrawCalls := [], triggered := false } := by
  unfold awdpay_deposit_callback
  rw [hsig, hparse]
  simp only [DB.findRef, DB.logEvent] at hdb ⊢
  rw [hdb]
  simp [hst]

/-- Executing the withdrawal callback on a transfer whose status is not
WITHDRAWAL_PENDING: audit the webhook, acknowledge as already processed. -/
theorem withdrawal_callback_already_run (hmacFn : HmacFn) (parseTs : TimestampParse)
    (secret sigHeader tsHeader rawBody : String) (nowSec : Int) (now : Nat)
    (p : WithdrawalPayload) (db : DB) (r cs : String) (t : Transfer)
    (hsig : verify_withdrawal_signature hmacFn parseTs secret sigHeader tsHeader
      rawBody nowSec = true)
    (hparse : parse_withdrawal_callback p =
      some (r, cs, p.reference, p.failureReason, p.failureMessage))
    (hdb : db.findRef r = some t) (hst : t.status ≠ .withdrawal_pending) :
    awdpay_withdrawal_callback hmacFn parseTs secret sigHeader tsHeader rawBody
        nowSec now p db =
      { db := db.logEvent r "webhook_received", response := .okAlready } := by
  unfold awdpay_withdrawal_callback
  rw [hsig, hparse]
  simp only [DB.findRef, DB.logEvent] at hdb ⊢
  rw [hdb]
  simp [hst]

/-! ### Claims -/

/-- Claim C10: when the configured webhook secret is empty (or unset, which
`getattr(..., '')` collapses to empty), signature verification on both channels
succeeds unconditionally, for any payload, signature, timestamp and clock. -/
theorem empty_secret_skips_verification (hmacFn : HmacFn) (parseTs : TimestampParse)
    (p : DepositPayload) (sigHeader tsHeader rawBody : String) (nowSec : Int) :
    verify_deposit_signature hmacFn "" p = true ∧
      verify_withdrawal_signature hmacFn parseTs "" sigHeader tsHeader rawBody nowSec = true :=
  ⟨rfl, rfl⟩

/-- Claim C2: an inbound webhook whose signature fails verification is rejected
with the 401 authentication error, and neither the Transfer table nor the audit
log is touched, on either channel, for any payload. -/
theorem invalid_signature_no_mutation (hmacFn : HmacFn) (parseTs : TimestampParse)
    (secret : String) (apiOutcome : WithdrawApiOutcome) (now : Nat)
    (p : DepositPayload) (pw : WithdrawalPayload)
    (sigHeader tsHeader rawBody : String) (nowSec : Int) (nowW : Nat) (db : DB) :
    (verify_deposit_signature hmacFn secret p = false →
      awdpay_deposit_callback hmacFn secret apiOutcome now p db =
        { db := db, response := .unauthorized, withdrawCalls := [], triggered := false }) ∧
    (verify_withdrawal_signature hmacFn parseTs secret sigHeader tsHeader rawBody nowSec = false →
      awdpay_withdrawal_callback hmacFn parseTs secret sigHeader tsHeader rawBody nowSec nowW pw db =
        { db := db, response := .unauthorized }) := by
  constructor
  · intro h
    unfold awdpay_deposit_callback
    simp [h]
  · intro h
    unfold awdpay_withdrawal_callback
    simp [h]

theorem invalid_signature_no_mutation_witness :
    (awdpay_deposit_callback (fun _ _ => "good") "k" (.ok ⟨none, none⟩) 0
        { event := "deposit.completed", reference := "AWD-1", status := "completed"
          amount := "1000", orderId := "TRF-1", signature := "bad" }
        { transfers := [], audit := [] } =
      { db := { transfers := [], audit := [] }, response := .unauthorized
        withdrawCalls := [], triggered := false }) ∧
    (awdpay_withdrawal_callback (fun _ _ => "good") (fun _ => some 0) "k" "bad" "1" "{}" 0 0
        { event := "withdrawal.success", status := "success", reference := "AWD-2"
          withdrawalId := "TRF-1", failureReason := "", failureMessage := "" }
        { transfers := [], audit := [] } =
      { db := { transfers := [], audit := [] }, response := .unauthorized }) :=
  ⟨(invalid_signature_no_mutation (fun _ _ => "good") (fun _ => some 0) "k"
      (.ok ⟨none, none⟩) 0
      { event := "deposit.completed", reference := "AWD-1", status := "completed"
        amount := "1000", orderId := "TRF-1", signature := "bad" }
      { event := "withdrawal.success", status := "success", reference := "AWD-2"
        withdrawalId := "TRF-1", failureReason := "", failureMessage := "" }
      "bad" "1" "{}" 0 0 { transfers := [], audit := [] }).1 (by decide),
   (invalid_signature_no_mutation (fun _ _ => "good") (fun _ => some 0) "k"
      (.ok ⟨none, none⟩) 0
      { event := "deposit.completed", reference := "AWD-1", status := "completed"
        amount := "1000", orderId := "TRF-1", signature := "bad" }
      { event := "withdrawal.success", status := "success", reference := "AWD-2"
        withdrawalId := "TRF-1", failureReason := "", failureMessage := "" }
      "bad" "1" "{}" 0 0 { transfers := [], audit := [] }).2 (by decide)⟩

/-- Claim C4 (code bug): the request body `initiate_deposit` sends carries the
hard-coded literal 200 as its amount field for every call, ignoring the amount
argument — at the failing input amount "5000" the provider is asked to collect
200, not 5000. -/
theorem initiate_deposit_amount_hardcoded :
    (∀ cb amount currency gateway phone country reference description,
      (initiate_deposit_body cb amount currency gateway phone country reference
        description).amount = JsonVal.num 200) ∧
    (initiate_deposit_body "https://api.example.com" "5000" "XAF" "mtn"
        "237670000001" "CM" "TRF-ABC123" "").amount = JsonVal.num 200 ∧
    JsonVal.num 200 ≠ JsonVal.str "5000" ∧ (200 : ℚ) ≠ 5000 := by
  refine ⟨fun _ _ _ _ _ _ _ _ => rfl, rfl, ?_, by norm_num⟩
  intro h
  cases h

/-- For an existing row, `for_user` never persists anything: the save guard
re-tests staleness only after the reset assignments already made both
comparisons equal. -/
theorem for_user_existing_never_persists (today : Date) (obj : Snap) :
    (for_user today (some obj)).persisted = obj := by
  unfold for_user
  by_cases h1 : obj.period_start ≠ monthStartOf today
  · by_cases h2 : obj.daily_date ≠ today
    · simp [h1, h2]
    · simp [h1, h2]
  · by_cases h2 : obj.daily_date ≠ today
    · simp [h1, h2]
    · simp [h1, h2]

/-- Claim C3 (code bug): at the failing input — a stored snapshot with stale
month and day windows, read on 2025-10-05 — `for_user` returns the
rolled-forward snapshot (counters reset to zero) but the stored row is left
untouched: `obj.save()` is never reached because the staleness test it guards
on is re-evaluated after the windows were already reset in memory. -/
theorem for_user_stale_window_not_persisted :
    (for_user ⟨2025, 10, 5⟩ (some staleSnapC3)).returned =
      { period_start := ⟨2025, 10, 1⟩, period_end := ⟨2025, 10, 31⟩
        daily_date := ⟨2025, 10, 5⟩
        total_sent := 0, transfer_count := 0, daily_sent := 0, daily_count := 0 } ∧
    (for_user ⟨2025, 10, 5⟩ (some staleSnapC3)).persisted = staleSnapC3 := by
  constructor
  · decide
  · decide

/-- Claim C5: when validation passed but the `initiate_deposit` provider call
fails, the transfer ends FAILED with error code DEPOSIT_INIT_ERROR and the
provider's message, audit records `created` then `failed`, the error is
returned to the caller as the 400 body, and the limit snapshot is unchanged. -/
theorem create_deposit_init_failure (d : ValidatedData) (reference userEmail exc : String)
    (now : Nat) :
    (createTransferPost d reference userEmail (.error exc) now).transfer.status = .failed ∧
    (createTransferPost d reference userEmail (.error exc) now).transfer.error_code =
      "DEPOSIT_INIT_ERROR" ∧
    (createTransferPost d reference userEmail (.error exc) now).transfer.error_message = exc ∧
    (createTransferPost d reference userEmail (.error exc) now).audit = ["created", "failed"] ∧
    (createTransferPost d reference userEmail (.error exc) now).response =
      .failed400 exc "DEPOSIT_INIT_ERROR" ∧
    (createTransferPost d reference userEmail (.error exc) now).snapshot = d.snapshot := by
  refine ⟨?_, ?_, ?_, rfl, rfl, rfl⟩
  · simp [createTransferPost, mark_failed, saveHook_eq]
  · simp [createTransferPost, mark_failed, saveHook_eq]
  · simp [createTransferPost, mark_failed, saveHook_eq]

/-- Claim C1: delivering a completed-deposit webhook twice to a transfer in
DEPOSIT_PENDING yields exactly one DEPOSIT_CONFIRMED transition (one
`deposit_confirmed` audit entry in total) and exactly one withdrawal-initiation
attempt (the trigger runs in the first delivery only, issuing at most one
`initiate_withdrawal` call); the second delivery finds the status moved on, is
acknowledged as already processed, calls `initiate_withdrawal` zero times and
leaves the transfer table untouched. -/
theorem deposit_webhook_idempotent
    (hmacFn : HmacFn) (secret : String) (api1 api2 : WithdrawApiOutcome) (now1 now2 : Nat)
    (p : DepositPayload) (db : DB) (r : String) (t : Transfer)
    (hsig : verify_deposit_signature hmacFn secret p = true)
    (href : p.orderId = r) (hr : r ≠ "") (hcs : strToLower p.status = "completed")
    (hdb : db.findRef r = some t) (hst : t.status = .deposit_pending) :
    (awdpay_deposit_callback hmacFn secret api1 now1 p db).triggered = true ∧
    (awdpay_deposit_callback hmacFn secret api1 now1 p db).withdrawCalls.length ≤ 1 ∧
    (awdpay_deposit_callback hmacFn secret api2 now2 p
      (awdpay_deposit_callback hmacFn secret api1 now1 p db).db).triggered = false ∧
    (awdpay_deposit_callback hmacFn secret api2 now2 p
      (awdpay_deposit_callback hmacFn secret api1 now1 p db).db).withdrawCalls = [] ∧
    (awdpay_deposit_callback hmacFn secret api2 now2 p
      (awdpay_deposit_callback hmacFn secret api1 now1 p db).db).response = .okAlready ∧
    (awdpay_deposit_callback hmacFn secret api2 now2 p
      (awdpay_deposit_callback hmacFn secret api1 now1 p db).db).db.transfers =
      (awdpay_deposit_callback hmacFn secret api1 now1 p db).db.transfers ∧
    auditCount (awdpay_deposit_callback hmacFn secret api2 now2 p
        (awdpay_deposit_callback hmacFn secret api1 now1 p db).db).db.audit
        r "deposit_confirmed" =
      auditCount db.audit r "deposit_confirmed" + 1 := by
  have hparse := parse_deposit_eq href hr hcs (by decide)
  have hrun1 := deposit_callback_completed_run hmacFn secret api1 now1 p db r t
    hsig href hr hcs hdb hst
  have hfind1 := deposit_callback_completed_findRef hmacFn secret api1 now1 p db r t
    hsig href hr hcs hdb hst
  have hstatus2 : (trigger_withdrawal api1 now1 (depositConfirmedNext p t now1)).transfer.status
      ≠ TStatus.deposit_pending := by
    rcases trigger_status api1 now1 (depositConfirmedNext p t now1) with h | h <;> simp [h]
  have hrun2 := deposit_callback_already_run hmacFn secret api2 now2 p
    (awdpay_deposit_callback hmacFn secret api1 now1 p db).db r "completed"
    (trigger_withdrawal api1 now1 (depositConfirmedNext p t now1)).transfer
    hsig hparse hfind1 hstatus2
  have hcnt3 : auditCount ((trigger_withdrawal api1 now1
      (depositConfirmedNext p t now1)).events.map (fun e => (r, e))) r "deposit_confirmed" = 0 := by
    rcases trigger_events_cases api1 now1 (depositConfirmedNext p t now1) with h | h | h <;>
      simp [h, auditCount, List.filter]
  refine ⟨?_, ?_, ?_, ?_, ?_, ?_, ?_⟩
  · rw [hrun1]
  · rw [hrun1]
    exact trigger_calls_length api1 now1 (depositConfirmedNext p t now1)
  · rw [hrun2]
  · rw [hrun2]
  · rw [hrun2]
  · rw [hrun2]
    rfl
  · rw [hrun2, hrun1]
    have h2 : auditCount [(r, "webhook_received"), (r, "deposit_confirmed")]
        r "deposit_confirmed" = 1 := by
      simp [auditCount, List.filter]
    have h4 : auditCount [(r, "webhook_received")] r "deposit_confirmed" = 0 := by
      simp [auditCount, List.filter]
    simp only [DB.logEvent, auditCount_append, hcnt3, h2, h4]

/-- Claim C6: a valid completed-deposit webhook on a DEPOSIT_PENDING transfer
first applies the DEPOSIT_CONFIRMED transition with its audit entry, then
synchronously attempts the withdrawal: unmapped payout gateway ⇒ FAILED with
PAYOUT_GATEWAY_MISSING and a `failed` audit entry; `initiate_withdrawal`
raising ⇒ FAILED with WITHDRAWAL_INIT_ERROR and a `withdrawal_failed` entry;
success ⇒ WITHDRAWAL_PENDING carrying the provider's withdrawal reference and
a `withdrawal_initiated` entry — and the stored transfer is the trigger's
result in every case. -/
theorem deposit_completed_chains_withdrawal
    (hmacFn : HmacFn) (secret : String) (api : WithdrawApiOutcome) (now : Nat)
    (p : DepositPayload) (db : DB) (r : String) (t : Transfer)
    (hsig : verify_deposit_signature hmacFn secret p = true)
    (href : p.orderId = r) (hr : r ≠ "") (hcs : strToLower p.status = "completed")
    (hdb : db.findRef r = some t) (hst : t.status = .deposit_pending) :
    (depositConfirmedNext p t now).status = .deposit_confirmed ∧
    (awdpay_deposit_callback hmacFn secret api now p db).db.audit =
      db.audit ++ [(r, "webhook_received"), (r, "deposit_confirmed")]
        ++ (trigger_withdrawal api now (depositConfirmedNext p t now)).events.map
            (fun e => (r, e)) ∧
    (awdpay_deposit_callback hmacFn secret api now p db).db.findRef r =
      some (trigger_withdrawal api now (depositConfirmedNext p t now)).transfer ∧
    (get_gateway_info t.payout_mobile_provider = none →
      (trigger_withdrawal api now (depositConfirmedNext p t now)).transfer.status = .failed ∧
      (trigger_withdrawal api now (depositConfirmedNext p t now)).transfer.error_code =
        "PAYOUT_GATEWAY_MISSING" ∧
      (trigger_withdrawal api now (depositConfirmedNext p t now)).events = ["failed"]) ∧
    (∀ info exc, get_gateway_info t.payout_mobile_provider = some info → api = .error exc →
      (trigger_withdrawal api now (depositConfirmedNext p t now)).transfer.status = .failed ∧
      (trigger_withdrawal api now (depositConfirmedNext p t now)).transfer.error_code =
        "WITHDRAWAL_INIT_ERROR" ∧
      (trigger_withdrawal api now (depositConfirmedNext p t now)).transfer.error_message = exc ∧
      (trigger_withdrawal api now (depositConfirmedNext p t now)).events =
        ["withdrawal_failed"]) ∧
    (∀ info res, get_gateway_info t.payout_mobile_provider = some info → api = .ok res →
      (trigger_withdrawal api now (depositConfirmedNext p t now)).transfer.status =
        .withdrawal_pending ∧
      (trigger_withdrawal api now (depositConfirmedNext p t now)).transfer.withdrawal_reference =
        res.withdrawRef.getD (res.ref.getD t.reference) ∧
      (trigger_withdrawal api now (depositConfirmedNext p t now)).transfer.withdrawal_gateway =
        info.gateway ∧
      (trigger_withdrawal api now (depositConfirmedNext p t now)).events =
        ["withdrawal_initiated"]) := by
  have hrun := deposit_callback_completed_run hmacFn secret api now p db r t
    hsig href hr hcs hdb hst
  have hfind := deposit_callback_completed_findRef hmacFn secret api now p db r t
    hsig href hr hcs hdb hst
  refine ⟨depositConfirmedNext_status p t now, ?_, hfind, ?_, ?_, ?_⟩
  · rw [hrun]
  · intro hg
    unfold trigger_withdrawal
    rw [depositConfirmedNext_payout, hg]
    simp [mark_failed, saveHook_eq]
  · intro info exc hg hapi
    unfold trigger_withdrawal
    rw [depositConfirmedNext_payout, hg, hapi]
    simp [mark_failed, saveHook_eq]
  · intro info res hg hapi
    unfold trigger_withdrawal
    rw [depositConfirmedNext_payout, hg, hapi]
    simp [mark_withdrawal_pending, saveHook_eq, depositConfirmedNext_reference]

/-- Claim C8: a withdrawal webhook reporting success for a transfer already
COMPLETED or FAILED changes no Transfer row at all, yet still appends exactly
one `webhook_received` audit entry and acknowledges with success. -/
theorem withdrawal_webhook_terminal_noop
    (hmacFn : HmacFn) (parseTs : TimestampParse) (secret sigHeader tsHeader rawBody : String)
    (nowSec : Int) (now : Nat) (p : WithdrawalPayload) (db : DB) (r : String) (t : Transfer)
    (hsig : verify_withdrawal_signature hmacFn parseTs secret sigHeader tsHeader
      rawBody nowSec = true)
    (hid : p.withdrawalId = r) (hr : r ≠ "") (hcs : strToLower p.status = "success")
    (hdb : db.findRef r = some t)
    (hterm : t.status = .completed ∨ t.status = .failed) :
    (awdpay_withdrawal_callback hmacFn parseTs secret sigHeader tsHeader rawBody
        nowSec now p db).db.transfers = db.transfers ∧
    (awdpay_withdrawal_callback hmacFn parseTs secret sigHeader tsHeader rawBody
        nowSec now p db).db.audit = db.audit ++ [(r, "webhook_received")] ∧
    (awdpay_withdrawal_callback hmacFn parseTs secret sigHeader tsHeader rawBody
        nowSec now p db).response = .okAlready := by
  have hparse := parse_withdrawal_eq hid hr hcs (by decide)
  have hst : t.status ≠ TStatus.withdrawal_pending := by
    rcases hterm with h | h <;> simp [h]
  have hrun := withdrawal_callback_already_run hmacFn parseTs secret sigHeader tsHeader
    rawBody nowSec now p db r "success" t hsig hparse hdb hst
  rw [hrun]
  exact ⟨rfl, rfl, rfl⟩

theorem applyOp_preserves_total (t : Transfer) (op : TransferOp)
    (h : totalInvariant t) : totalInvariant (applyOp t op) := by
  cases op <;>
    simp only [applyOp, mark_deposit_pending, mark_deposit_confirmed, mark_deposit_failed,
      mark_withdrawal_pending, mark_completed, mark_failed, saveHook_eq,
      totalInvariant] at h ⊢ <;>
    split_ifs <;> simp_all

theorem applyOps_preserves_total (ops : List TransferOp) :
    ∀ t : Transfer, totalInvariant t → totalInvariant (applyOps t ops) := by
  induction ops with
  | nil => intro t h; exact h
  | cons op ops ih =>
    intro t h
    exact ih (applyOp t op) (applyOp_preserves_total t op h)

theorem createTransferPost_total (d : ValidatedData) (reference userEmail : String)
    (outcome : DepositApiOutcome) (now : Nat) :
    totalInvariant (createTransferPost d reference userEmail outcome now).transfer := by
  cases outcome <;>
    simp only [createTransferPost, createdTransfer, mark_failed, mark_deposit_pending,
      saveHook_eq, totalInvariant] <;>
    split_ifs <;> simp_all

/-- Claim C9: for every transfer produced by the creation flow — whatever the
deposit-initiation outcome — `total_amount = amount + service_fee` holds, and it
keeps holding after any sequence of subsequent persists (all state-machine
transitions and the webhook field saves). -/
theorem transfer_total_amount_invariant (d : ValidatedData) (reference userEmail : String)
    (outcome : DepositApiOutcome) (now : Nat) (ops : List TransferOp) :
    totalInvariant (createTransferPost d reference userEmail outcome now).transfer ∧
    totalInvariant
      (applyOps (createTransferPost d reference userEmail outcome now).transfer ops) :=
  ⟨createTransferPost_total d reference userEmail outcome now,
   applyOps_preserves_total ops _ (createTransferPost_total d reference userEmail outcome now)⟩

/-! ### Fee schedule (C7) -/

/-- Rounding an integer to two decimals changes nothing. -/
theorem quantize2_intCast (n : ℤ) : quantize2 ((n : ℚ)) = (n : ℚ) := by
  unfold quantize2 roundHalfEven
  rw [show ((n : ℚ) * 100) = ((n * 100 : ℤ) : ℚ) by push_cast; ring,
    Int.floor_intCast, sub_self]
  rw [if_pos (by norm_num : (0 : ℚ) < 1 / 2)]
  push_cast
  ring

theorem corridorFee_zero_eval : corridorFee ⟨0, 0, 100, 1000000⟩ 10000 = 0 := by
  unfold corridorFee
  rw [show ((0 : ℚ) + 10000 * 0 / 100) = ((0 : ℤ) : ℚ) by norm_num, quantize2_intCast]
  norm_num

theorem corridorFee_fixed_eval : corridorFee ⟨100, 1, 100, 1000000⟩ 20000 = 300 := by
  unfold corridorFee
  rw [show ((100 : ℚ) + 20000 * 1 / 100) = ((300 : ℤ) : ℚ) by norm_num, quantize2_intCast]
  norm_num

theorem for_user_fresh_eval : (for_user ⟨2025, 10, 5⟩ none).returned = freshOctSnap := by
  decide

/-- Evaluation of the serializer's validation at the C7 boundary input: amount
exactly 10,000 through a corridor with zero fees. -/
theorem validateCreate_boundary_eval :
    validateCreate 10000 (some ⟨0, 0, 100, 1000000⟩) basicLimits ⟨2025, 10, 5⟩ none =
      .valid 0 freshOctSnap := by
  simp only [validateCreate, for_user_fresh_eval]
  rw [if_neg (by norm_num), if_neg (by norm_num), if_neg (by norm_num [basicLimits]),
    if_neg (by norm_num [freshOctSnap, basicLimits]),
    if_neg (by norm_num [freshOctSnap, basicLimits]), corridorFee_zero_eval]

theorem validateCreate_witness_eval :
    validateCreate 20000 (some ⟨100, 1, 100, 1000000⟩) basicLimits ⟨2025, 10, 5⟩ none =
      .valid 300 freshOctSnap := by
  simp only [validateCreate, for_user_fresh_eval]
  rw [if_neg (by norm_num), if_neg (by norm_num), if_neg (by norm_num [basicLimits]),
    if_neg (by norm_num [freshOctSnap, basicLimits]),
    if_neg (by norm_num [freshOctSnap, basicLimits]), corridorFee_fixed_eval]

/-- Counterexample to claim C7 as stated: a creation request through a corridor
with no corridor fee configured (fixed 0, percentage 0) and amount exactly
10,000 passes validation with service fee 0 — not the 50 the flat tiered
schedule demands. -/
theorem flat_fee_at_boundary_refuted :
    validateCreate 10000 (some ⟨0, 0, 100, 1000000⟩) basicLimits ⟨2025, 10, 5⟩ none =
      .valid 0 freshOctSnap ∧
    specFlatFee 10000 = 50 ∧ (0 : Money) ≠ 50 := by
  refine ⟨validateCreate_boundary_eval, by norm_num [specFlatFee], by norm_num⟩

/-- Claim C7 (amended): the creation path always computes the corridor formula
`quantize2 (fixed_fee + amount * percentage_fee / 100)` — the flat tiered
schedule of the spec is never consulted, so amount 10,000 through a zero-fee
corridor yields fee 0 where the schedule would say 50. -/
theorem service_fee_always_corridor_formula :
    (∀ (amount : Money) (c : Corridor) (limits : Limits) (today : Date)
        (stored : Option Snap) (fee : Money) (snap : Snap),
      validateCreate amount (some c) limits today stored = .valid fee snap →
        fee = quantize2 (c.fixed_fee + amount * c.percentage_fee / 100)) ∧
    validateCreate 10000 (some ⟨0, 0, 100, 1000000⟩) basicLimits ⟨2025, 10, 5⟩ none =
      .valid 0 freshOctSnap ∧
    specFlatFee 10000 = 50 := by
  refine ⟨?_, validateCreate_boundary_eval, by norm_num [specFlatFee]⟩
  intro amount c limits today stored fee snap h
  simp only [validateCreate] at h
  split_ifs at h <;> cases h
  rfl

theorem service_fee_always_corridor_formula_witness :
    (300 : Money) = quantize2 (100 + 20000 * 1 / 100) :=
  service_fee_always_corridor_formula.1 20000 ⟨100, 1, 100, 1000000⟩ basicLimits
    ⟨2025, 10, 5⟩ none 300 freshOctSnap validateCreate_witness_eval

theorem deposit_webhook_idempotent_witness :
    (awdpay_deposit_callback hmacZero "" apiOkW 1 pFix dbFix).triggered = true ∧
    (awdpay_deposit_callback hmacZero "" apiOkW 2 pFix
      (awdpay_deposit_callback hmacZero "" apiOkW 1 pFix dbFix).db).response = .okAlready ∧
    auditCount (awdpay_deposit_callback hmacZero "" apiOkW 2 pFix
        (awdpay_deposit_callback hmacZero "" apiOkW 1 pFix dbFix).db).db.audit
        "TRF-1" "deposit_confirmed" =
      auditCount dbFix.audit "TRF-1" "deposit_confirmed" + 1 := by
  obtain ⟨h1, _, _, _, h5, _, h7⟩ :=
    deposit_webhook_idempotent hmacZero "" apiOkW apiOkW 1 2 pFix dbFix "TRF-1" tFix
      rfl rfl (by decide) (by decide) rfl rfl
  exact ⟨h1, h5, h7⟩

theorem deposit_completed_chains_withdrawal_witness :
    (trigger_withdrawal apiOkW 1 (depositConfirmedNext pFix tFix 1)).transfer.status =
      .withdrawal_pending ∧
    (trigger_withdrawal apiOkW 1 (depositConfirmedNext pFix tFix 1)).transfer.withdrawal_reference
      = "WD-1" := by
  obtain ⟨-, -, -, -, -, h6⟩ :=
    deposit_completed_chains_withdrawal hmacZero "" apiOkW 1 pFix dbFix "TRF-1" tFix
      rfl rfl (by decide) (by decide) rfl rfl
  obtain ⟨hs, hw, -, -⟩ := h6 ⟨"wave-ci", "CI", "XOF"⟩ { withdrawRef := some "WD-1", ref := none }
    (by decide) rfl
  exact ⟨hs, hw⟩

theorem withdrawal_webhook_terminal_noop_witness :
    (awdpay_withdrawal_callback hmacZero (fun _ => some 0) "" "" "" "" 0 5
        pwFix dbDone).db.transfers = dbDone.transfers ∧
    (awdpay_withdrawal_callback hmacZero (fun _ => some 0) "" "" "" "" 0 5
        pwFix dbDone).db.audit = dbDone.audit ++ [("TRF-2", "webhook_received")] ∧
    (awdpay_withdrawal_callback hmacZero (fun _ => some 0) "" "" "" "" 0 5
        pwFix dbDone).response = .okAlready :=
  withdrawal_webhook_terminal_noop hmacZero (fun _ => some 0) "" "" "" "" 0 5
    pwFix dbDone "TRF-2" tDone rfl rfl (by decide) (by decide) rfl (Or.inl rfl)

end ChichTransfer
